import Mathlib

/-!
# Wordpress operator: the reconciliation orchestrator

A shallow embedding of `WordpressReconciler.Reconcile`
(`internal/controller/wordpress_controller.go`).

The store client, the three ensure helpers, the readiness gate and the six
template functions are collaborators of `Reconcile`; they are fields of
`WordpressReconciler` and every theorem about `Reconcile` quantifies over them.
Collaborators that touch the cluster are state transformers over a world
state `σ`.  Calls to the logger do not influence the control flow or the
returned values and are left out.
-/

namespace Wordpress

/-! ## Library types used by the source -/

/-- Go `time.Duration`: a count of nanoseconds. -/
abbrev Duration := Int

/-- Go `time.Nanosecond`. -/
def Nanosecond : Duration := 1
/-- Go `time.Microsecond`. -/
def Microsecond : Duration := 1000 * Nanosecond
/-- Go `time.Millisecond`. -/
def Millisecond : Duration := 1000 * Microsecond
/-- Go `time.Second`. -/
def Second : Duration := 1000 * Millisecond

/-- The `types.NamespacedName` of apimachinery. -/
structure NamespacedName where
  Namespace : String
  Name : String
  deriving DecidableEq, Repr

/-- The `ctrl.Request` of controller-runtime. -/
structure Request where
  NamespacedName : Wordpress.NamespacedName
  deriving DecidableEq, Repr

/-- The `ctrl.Result` of controller-runtime; `Result{}` is `{}`. -/
structure Result where
  Requeue : Bool := false
  RequeueAfter : Duration := 0
  deriving DecidableEq, Repr

/-- What `Reconcile` observes of a Go `context.Context`: whether it is cancelled. -/
structure Context where
  cancelled : Bool
  deriving DecidableEq, Repr

/-- Go `context.TODO()`: an empty context, never cancelled. -/
def Context.TODO : Context := ⟨false⟩

/-! ## Execution trace -/

/-- The six ensure call sites of `Reconcile` and the readiness gate. -/
inductive Step where
  | ensurePVCMysql
  | ensureDeploymentMysql
  | ensureServiceMysql
  | isMysqlUp
  | ensurePVCWordpress
  | ensureDeploymentWordpress
  | ensureServiceWordpress
  deriving DecidableEq, Repr

/-- The order in which the source text of `Reconcile` reaches the call sites. -/
def Step.programOrder : List Step :=
  [.ensurePVCMysql, .ensureDeploymentMysql, .ensureServiceMysql, .isMysqlUp,
   .ensurePVCWordpress, .ensureDeploymentWordpress, .ensureServiceWordpress]

/-- Position of a call site in `Step.programOrder`. -/
def Step.index : Step → Nat
  | .ensurePVCMysql => 0
  | .ensureDeploymentMysql => 1
  | .ensureServiceMysql => 2
  | .isMysqlUp => 3
  | .ensurePVCWordpress => 4
  | .ensureDeploymentWordpress => 5
  | .ensureServiceWordpress => 6

/-- The three ensure call sites of the backing-store (MySQL) tier. -/
def Step.isBackingStore : Step → Bool
  | .ensurePVCMysql | .ensureDeploymentMysql | .ensureServiceMysql => true
  | _ => false

/-- The three ensure call sites of the application (Wordpress) tier. -/
def Step.isApplication : Step → Bool
  | .ensurePVCWordpress | .ensureDeploymentWordpress | .ensureServiceWordpress => true
  | _ => false

/-- One collaborator call made by an invocation, with what it returned. -/
inductive Event (ε : Type) where
  | ensure (step : Step) (result : Option Result) (err : Option ε)
  | gate (up : Bool)
  deriving DecidableEq, Repr

/-- The call site an event belongs to. -/
def Event.step {ε : Type} : Event ε → Step
  | .ensure st _ _ => st
  | .gate _ => .isMysqlUp

/-! ## The reconciler -/

/-- The receiver of `Reconcile` together with the helpers and templates it calls.
`W` is `v1.Wordpress`; `PVC`, `Dep`, `Svc` are the three sub-resource types;
`ε` is the type of non-nil Go errors (`none` is the nil error). -/
structure WordpressReconciler (σ ε W PVC Dep Svc : Type) where
  /-- The zero value `&v1.Wordpress{}`. -/
  emptyWordpress : W
  /-- The `r.Client.Get`: fills the object passed in and returns an error. -/
  Get : Context → NamespacedName → W → σ → (W × Option ε) × σ
  /-- The `errors.IsNotFound`. -/
  IsNotFound : ε → Bool
  pvcForMysql : W → PVC
  deploymentForMysql : W → Dep
  serviceForMysql : W → Svc
  pvcForWordpress : W → PVC
  deploymentForWordpress : W → Dep
  serviceForWordpress : W → Svc
  ensurePVC : Request → W → PVC → σ → (Option Result × Option ε) × σ
  ensureDeployment : Request → W → Dep → σ → (Option Result × Option ε) × σ
  ensureService : Request → W → Svc → σ → (Option Result × Option ε) × σ
  isMysqlUp : W → σ → Bool × σ

/-- What one invocation of `Reconcile` produces: the returned `(ctrl.Result, error)`,
the collaborator calls it made, in order, and the world it leaves. -/
structure Invocation (σ ε : Type) where
  result : Result
  err : Option ε
  trace : List (Event ε)
  state : σ

/-- The `WordpressReconciler.Reconcile`. -/
def Reconcile {σ ε W PVC Dep Svc : Type} (r : WordpressReconciler σ ε W PVC Dep Svc)
    (_ctx : Context) (request : Request) (s : σ) : Invocation σ ε :=
  let wordpress := r.emptyWordpress
  match r.Get Context.TODO request.NamespacedName wordpress s with
  | ((_, some err), s0) =>
    if r.IsNotFound err then
      ⟨{}, none, [], s0⟩
    else
      ⟨{}, some err, [], s0⟩
  | ((wordpress, none), s0) =>
    -- === MYSQL ======
    match r.ensurePVC request wordpress (r.pvcForMysql wordpress) s0 with
    | ((some result, err), s1) => ⟨result, err, [.ensure .ensurePVCMysql (some result) err], s1⟩
    | ((none, e1), s1) =>
    let t1 : List (Event ε) := [.ensure .ensurePVCMysql none e1]
    match r.ensureDeployment request wordpress (r.deploymentForMysql wordpress) s1 with
    | ((some result, err), s2) =>
      ⟨result, err, t1 ++ [.ensure .ensureDeploymentMysql (some result) err], s2⟩
    | ((none, e2), s2) =>
    let t2 := t1 ++ [.ensure .ensureDeploymentMysql none e2]
    match r.ensureService request wordpress (r.serviceForMysql wordpress) s2 with
    | ((some result, err), s3) =>
      ⟨result, err, t2 ++ [.ensure .ensureServiceMysql (some result) err], s3⟩
    | ((none, e3), s3) =>
    let t3 := t2 ++ [.ensure .ensureServiceMysql none e3]
    match r.isMysqlUp wordpress s3 with
    | (false, s4) =>
      let delay := Second * (5 : Duration)
      ⟨{ RequeueAfter := delay }, none, t3 ++ [.gate false], s4⟩
    | (true, s4) =>
    let t4 := t3 ++ [.gate true]
    -- ===== WORDPRESS =====
    match r.ensurePVC request wordpress (r.pvcForWordpress wordpress) s4 with
    | ((some result, err), s5) =>
      ⟨result, err, t4 ++ [.ensure .ensurePVCWordpress (some result) err], s5⟩
    | ((none, e5), s5) =>
    let t5 := t4 ++ [.ensure .ensurePVCWordpress none e5]
    match r.ensureDeployment request wordpress (r.deploymentForWordpress wordpress) s5 with
    | ((some result, err), s6) =>
      ⟨result, err, t5 ++ [.ensure .ensureDeploymentWordpress (some result) err], s6⟩
    | ((none, e6), s6) =>
    let t6 := t5 ++ [.ensure .ensureDeploymentWordpress none e6]
    match r.ensureService request wordpress (r.serviceForWordpress wordpress) s6 with
    | ((some result, err), s7) =>
      ⟨result, err, t6 ++ [.ensure .ensureServiceWordpress (some result) err], s7⟩
    | ((none, e7), s7) =>
      ⟨{}, none, t6 ++ [.ensure .ensureServiceWordpress none e7], s7⟩

/-- A run of the controller: before each invocation the environment may change
the world (`external`), then `Reconcile` runs on the given request. -/
def reconcileAll {σ ε W PVC Dep Svc : Type} (r : WordpressReconciler σ ε W PVC Dep Svc) :
    List ((σ → σ) × Context × Request) → σ → List (Invocation σ ε)
  | [], _ => []
  | (external, ctx, request) :: rest, s =>
    let inv := Reconcile r ctx request (external s)
    inv :: reconcileAll r rest inv.state

/-! ## The store, the helpers and the templates

`Reconcile` is the only function of the controller package in this file of the
repository; the helpers it calls are described in the design document and are
modelled from there. -/

/-- Modelled from the spec: the two tiers of the declared application (§3). -/
inductive Tier where
  | backingStore
  | application
  deriving DecidableEq, Repr

/-- Modelled from the spec: the three kinds of managed sub-resource (§3). -/
inductive Kind where
  | StorageClaim
  | Deployment
  | Service
  deriving DecidableEq, Repr

/-- Modelled from the spec: the type `v1.Wordpress` of package `api/v1alpha1`, which
is not in this file of the repository (§3 DeclaredObject): a namespaced identity
and tier specifications that are opaque to the core. -/
structure DeclaredObject where
  identity : NamespacedName
  backingStoreImage : String
  applicationImage : String
  deriving DecidableEq, Repr

/-- Modelled from the spec: a managed sub-resource (§3 ManagedSubResource), with
the ownership back-reference of §4.1 and the replica counters read by the gate
of §4.2. -/
structure SubResource where
  kind : Kind
  Namespace : String
  Name : String
  image : String
  owner : Option NamespacedName
  replicas : Nat
  readyReplicas : Nat
  deriving DecidableEq, Repr

/-- Modelled from the spec: the errors of the store (§4.1, §5, §7). -/
inductive StoreError where
  | NotFound
  | TransientStoreError
  | CreateFailed
  | Cancelled
  deriving DecidableEq, Repr

/-- Modelled from the spec: the desired-state object store (§6), addressable by
namespaced name.  `unavailable` makes every read fail with a transient error and
`rejectsCreate` makes every create fail. -/
structure Store where
  declared : List DeclaredObject
  subResources : List SubResource
  unavailable : Bool
  rejectsCreate : Bool
  deriving DecidableEq, Repr

/-- Modelled from the spec: sub-resources are addressed by kind and namespaced
name (§4.1, §6); whether a stored sub-resource is the one a desired
specification names. -/
def SubResource.sameKey (a b : SubResource) : Bool :=
  decide (a.kind = b.kind) && decide (a.Namespace = b.Namespace) && decide (a.Name = b.Name)

/-- Modelled from the spec: the existence check of §4.1, "whether a sub-resource
with that name already exists in the store". -/
def Store.has (s : Store) (desired : SubResource) : Bool :=
  s.subResources.any (fun x => x.sameKey desired)

/-- Modelled from the spec: `get(namespacedName) → DeclaredObject | NotFoundError`
(§6); the call honours the context it is given (§5). -/
def Store.get (ctx : Context) (key : NamespacedName) (into : DeclaredObject) (s : Store) :
    (DeclaredObject × Option StoreError) × Store :=
  if ctx.cancelled then ((into, some .Cancelled), s)
  else if s.unavailable then ((into, some .TransientStoreError), s)
  else
    match s.declared.find? (fun d => decide (d.identity = key)) with
    | some d => ((d, none), s)
    | none => ((into, some .NotFound), s)

/-- Modelled from the spec: `create(resource) → () | Error` (§6) when it succeeds. -/
def Store.create (x : SubResource) (s : Store) : Store :=
  { s with subResources := s.subResources ++ [x] }

/-- Modelled from the spec: the template functions `pvcForMysql`,
`deploymentForMysql`, `serviceForMysql`, `pvcForWordpress`, `deploymentForWordpress`
and `serviceForWordpress`, which are not in this file of the repository (§6), with
the names of the concrete scenario of §8 (`W1-mysql-pvc`, `W1-mysql-deployment`,
...). -/
def template (tier : Tier) (kind : Kind) (d : DeclaredObject) : SubResource :=
  let t := match tier with
    | .backingStore => "-mysql"
    | .application => "-wp"
  let k := match kind with
    | .StorageClaim => "-pvc"
    | .Deployment => "-deployment"
    | .Service => "-service"
  let image := match tier with
    | .backingStore => d.backingStoreImage
    | .application => d.applicationImage
  { kind := kind, Namespace := d.identity.Namespace, Name := d.identity.Name ++ t ++ k,
    image := image, owner := none, replicas := 1, readyReplicas := 0 }

/-- Modelled from the spec: the helpers `ensurePVC`, `ensureDeployment` and
`ensureService`, which are not in this file of the repository; they are the one
generic ensure-operation of §4.1.  A failed existence check or a failed create is
propagated; a present sub-resource is accepted without modification (null
result, "proceed"); an absent one is created with an ownership reference to the
declared owner and the caller is told to stop this pass. -/
def ensure (_request : Request) (owner : DeclaredObject) (desired : SubResource) (s : Store) :
    (Option Result × Option StoreError) × Store :=
  if s.unavailable then ((some {}, some .TransientStoreError), s)
  else if s.has desired then ((none, none), s)
  else if s.rejectsCreate then ((some {}, some .CreateFailed), s)
  else
    ((some {}, none), s.create { desired with owner := some owner.identity })

/-- Modelled from the spec: the helper `isMysqlUp`, which is not in this file of the
repository; it is the readiness gate of §4.2, a predicate over the observed
replica counters of the backing-store Deployment, without side effects (0/1 ready
replicas is not ready, 1/1 is, §8). -/
def isMysqlUp (d : DeclaredObject) (s : Store) : Bool × Store :=
  match s.subResources.find? (fun x => x.sameKey (template .backingStore .Deployment d)) with
  | some dep => (decide (0 < dep.readyReplicas ∧ dep.replicas ≤ dep.readyReplicas), s)
  | none => (false, s)

/-- The reconciler wired to the modelled store, helpers and templates. -/
def controller : WordpressReconciler Store StoreError DeclaredObject
    SubResource SubResource SubResource where
  emptyWordpress := ⟨⟨"", ""⟩, "", ""⟩
  Get := Store.get
  IsNotFound := fun e => decide (e = .NotFound)
  pvcForMysql := template .backingStore .StorageClaim
  deploymentForMysql := template .backingStore .Deployment
  serviceForMysql := template .backingStore .Service
  pvcForWordpress := template .application .StorageClaim
  deploymentForWordpress := template .application .Deployment
  serviceForWordpress := template .application .Service
  ensurePVC := ensure
  ensureDeployment := ensure
  ensureService := ensure
  isMysqlUp := isMysqlUp

/-- The six (tier, kind) pairs in the order `Reconcile` ensures them. -/
def managed : List (Tier × Kind) :=
  [(.backingStore, .StorageClaim), (.backingStore, .Deployment), (.backingStore, .Service),
   (.application, .StorageClaim), (.application, .Deployment), (.application, .Service)]

/-- The store answers reads, holds the declared object `d` under its identity,
holds all six sub-resources of `d`, and the backing store is ready. -/
def Store.settledFor (d : DeclaredObject) (s : Store) : Bool :=
  !s.unavailable &&
  decide (s.declared.find? (fun x => decide (x.identity = d.identity)) = some d) &&
  managed.all (fun tk => s.has (template tk.1 tk.2 d)) &&
  (isMysqlUp d s).1

/-! ### The concrete scenario of the design document -/

/-- The declared object `W1` of the scenario. -/
def W1 : DeclaredObject := ⟨⟨"default", "W1"⟩, "mysql:8", "wordpress:6"⟩

/-- The request for `W1`. -/
def requestW1 : Request := ⟨W1.identity⟩

/-- The store holding `W1` and no sub-resource. -/
def emptyStore : Store := ⟨[W1], [], false, false⟩

/-- The store without any declared object. -/
def vacantStore : Store := ⟨[], [], false, false⟩

/-- The store holding `W1` that refuses every create. -/
def frozenStore : Store := ⟨[W1], [], false, true⟩

/-- A sub-resource of `W1` as the ensure-operation stores it, with the given
number of ready replicas. -/
def owned (tier : Tier) (kind : Kind) (ready : Nat) : SubResource :=
  { template tier kind W1 with owner := some W1.identity, readyReplicas := ready }

/-- The store after the three backing-store sub-resources of `W1` were created,
the MySQL deployment reporting 0/1 ready replicas. -/
def mysqlPending : Store :=
  ⟨[W1], [owned .backingStore .StorageClaim 0, owned .backingStore .Deployment 0,
    owned .backingStore .Service 0], false, false⟩

/-- The store holding all six sub-resources of `W1`, the MySQL deployment
reporting 1/1 ready replicas. -/
def settledStore : Store :=
  ⟨[W1], [owned .backingStore .StorageClaim 0, owned .backingStore .Deployment 1,
    owned .backingStore .Service 0, owned .application .StorageClaim 0,
    owned .application .Deployment 0, owned .application .Service 0], false, false⟩

/-- Five invocations for `W1` in a row, under a cancelled context, with no
external change in between. -/
def idleRun : List ((Store → Store) × Context × Request) :=
  List.replicate 5 (id, ⟨true⟩, requestW1)

/-- The external event of the scenario: the MySQL deployment reports 1/1 ready
replicas. -/
def mysqlBecomesReady (s : Store) : Store :=
  { s with subResources := s.subResources.map (fun x =>
      if x.sameKey (template .backingStore .Deployment W1) then { x with readyReplicas := 1 }
      else x) }

/-- The scenario of the design document: four invocations, the MySQL deployment
becomes ready, four more invocations. -/
def scenarioRun : List ((Store → Store) × Context × Request) :=
  List.replicate 4 (id, ⟨false⟩, requestW1) ++ [(mysqlBecomesReady, ⟨false⟩, requestW1)] ++
    List.replicate 3 (id, ⟨false⟩, requestW1)

/-! ### Scripted collaborators -/

/-- A reconciler whose collaborators answer from a script: the fetch returns
`fetch`, the ensure at call site `st` returns `answer st`, the gate returns `up`.
The world is the number of collaborator calls made so far. -/
def scripted (fetch : Option String) (answer : Step → Option Result × Option String)
    (up : Bool) : WordpressReconciler Nat String Unit Step Step Step where
  emptyWordpress := ()
  Get := fun _ _ w n => ((w, fetch), n + 1)
  IsNotFound := fun e => decide (e = "not found")
  pvcForMysql := fun _ => .ensurePVCMysql
  deploymentForMysql := fun _ => .ensureDeploymentMysql
  serviceForMysql := fun _ => .ensureServiceMysql
  pvcForWordpress := fun _ => .ensurePVCWordpress
  deploymentForWordpress := fun _ => .ensureDeploymentWordpress
  serviceForWordpress := fun _ => .ensureServiceWordpress
  ensurePVC := fun _ _ st n => (answer st, n + 1)
  ensureDeployment := fun _ _ st n => (answer st, n + 1)
  ensureService := fun _ _ st n => (answer st, n + 1)
  isMysqlUp := fun _ n => (up, n + 1)

/-- Scripted collaborators whose last ensure (the Wordpress service) returns a nil
result together with an error; every other step lets the invocation go on. -/
def lossyLast : WordpressReconciler Nat String Unit Step Step Step :=
  scripted none
    (fun st =>
      if st = .ensureServiceWordpress then (none, some "service lookup failed")
      else (none, none))
    true

/-- The reconciler `r` with every error that an ensure helper returns next to a
nil result replaced by the nil error. -/
def WordpressReconciler.withoutNilResultErrors {σ ε W PVC Dep Svc : Type}
    (r : WordpressReconciler σ ε W PVC Dep Svc) : WordpressReconciler σ ε W PVC Dep Svc :=
  let clean : (Option Result × Option ε) × σ → (Option Result × Option ε) × σ :=
    fun x => match x with
      | ((none, _), s) => ((none, none), s)
      | other => other
  { r with
    ensurePVC := fun request w p s => clean (r.ensurePVC request w p s)
    ensureDeployment := fun request w d s => clean (r.ensureDeployment request w d s)
    ensureService := fun request w v s => clean (r.ensureService request w v s) }

/-- Modelled from the spec: the contract of the helpers `ensurePVC`,
`ensureDeployment` and `ensureService`, which are not in this file of the
repository (§4.1, §7): an error of the existence check or of the create is
propagated and aborts the current invocation, that is, an ensure helper returns
an error only next to a non-nil result. -/
def WordpressReconciler.ErrorsAbort {σ ε W PVC Dep Svc : Type}
    (r : WordpressReconciler σ ε W PVC Dep Svc) : Prop :=
  (∀ request w p s,
    (r.ensurePVC request w p s).1.2 ≠ none → (r.ensurePVC request w p s).1.1 ≠ none) ∧
  (∀ request w d s,
    (r.ensureDeployment request w d s).1.2 ≠ none →
      (r.ensureDeployment request w d s).1.1 ≠ none) ∧
  (∀ request w v s,
    (r.ensureService request w v s).1.2 ≠ none → (r.ensureService request w v s).1.1 ≠ none)

/-- The ways an invocation can end, as seen in what it returns and in the
calls it made: a failed fetch, a stop at one of the six ensure steps, a closed
gate, or the end of the function. -/
def Invocation.Shape {σ ε : Type} (inv : Invocation σ ε) : Prop :=
  (inv.trace = [] ∧ inv.result = {}) ∨
  (∃ res err, inv.result = res ∧ inv.err = err ∧
    inv.trace = [.ensure .ensurePVCMysql (some res) err]) ∨
  (∃ e1 res err, inv.result = res ∧ inv.err = err ∧
    inv.trace = [.ensure .ensurePVCMysql none e1,
      .ensure .ensureDeploymentMysql (some res) err]) ∨
  (∃ e1 e2 res err, inv.result = res ∧ inv.err = err ∧
    inv.trace = [.ensure .ensurePVCMysql none e1, .ensure .ensureDeploymentMysql none e2,
      .ensure .ensureServiceMysql (some res) err]) ∨
  (∃ e1 e2 e3, inv.result = { RequeueAfter := 5000000000 } ∧ inv.err = none ∧
    inv.trace = [.ensure .ensurePVCMysql none e1, .ensure .ensureDeploymentMysql none e2,
      .ensure .ensureServiceMysql none e3, .gate false]) ∨
  (∃ e1 e2 e3 res err, inv.result = res ∧ inv.err = err ∧
    inv.trace = [.ensure .ensurePVCMysql none e1, .ensure .ensureDeploymentMysql none e2,
      .ensure .ensureServiceMysql none e3, .gate true,
      .ensure .ensurePVCWordpress (some res) err]) ∨
  (∃ e1 e2 e3 e5 res err, inv.result = res ∧ inv.err = err ∧
    inv.trace = [.ensure .ensurePVCMysql none e1, .ensure .ensureDeploymentMysql none e2,
      .ensure .ensureServiceMysql none e3, .gate true,
      .ensure .ensurePVCWordpress none e5,
      .ensure .ensureDeploymentWordpress (some res) err]) ∨
  (∃ e1 e2 e3 e5 e6 res err, inv.result = res ∧ inv.err = err ∧
    inv.trace = [.ensure .ensurePVCMysql none e1, .ensure .ensureDeploymentMysql none e2,
      .ensure .ensureServiceMysql none e3, .gate true,
      .ensure .ensurePVCWordpress none e5, .ensure .ensureDeploymentWordpress none e6,
      .ensure .ensureServiceWordpress (some res) err]) ∨
  (∃ e1 e2 e3 e5 e6 e7, inv.result = {} ∧ inv.err = none ∧
    inv.trace = [.ensure .ensurePVCMysql none e1, .ensure .ensureDeploymentMysql none e2,
      .ensure .ensureServiceMysql none e3, .gate true,
      .ensure .ensurePVCWordpress none e5, .ensure .ensureDeploymentWordpress none e6,
      .ensure .ensureServiceWordpress none e7])

/-! ## Properties of `Reconcile` -/

section Orchestrator

variable {σ ε W PVC Dep Svc : Type}

/-- The invocation when the fetch fails. -/
theorem Reconcile_fetch_failed (r : WordpressReconciler σ ε W PVC Dep Svc) (ctx : Context)
    (request : Request) (s : σ) (w : W) (e : ε) (s0 : σ)
    (hget : r.Get Context.TODO request.NamespacedName r.emptyWordpress s = ((w, some e), s0)) :
    Reconcile r ctx request s =
      if r.IsNotFound e then ⟨{}, none, [], s0⟩ else ⟨{}, some e, [], s0⟩ := by
  simp only [Reconcile, hget]

/-- The invocation when the gate is reached and answers `false`. -/
theorem Reconcile_gate_closed (r : WordpressReconciler σ ε W PVC Dep Svc) (ctx : Context)
    (request : Request) (s : σ) (w : W) (s0 s1 s2 s3 s4 : σ) (e1 e2 e3 : Option ε)
    (hget : r.Get Context.TODO request.NamespacedName r.emptyWordpress s = ((w, none), s0))
    (h1 : r.ensurePVC request w (r.pvcForMysql w) s0 = ((none, e1), s1))
    (h2 : r.ensureDeployment request w (r.deploymentForMysql w) s1 = ((none, e2), s2))
    (h3 : r.ensureService request w (r.serviceForMysql w) s2 = ((none, e3), s3))
    (hg : r.isMysqlUp w s3 = (false, s4)) :
    Reconcile r ctx request s =
      ⟨{ RequeueAfter := 5000000000 }, none,
       [.ensure .ensurePVCMysql none e1, .ensure .ensureDeploymentMysql none e2,
        .ensure .ensureServiceMysql none e3, .gate false], s4⟩ := by
  simp only [Reconcile, hget, h1, h2, h3, hg]
  rfl

/-- Every invocation ends in one of the ways listed in `Invocation.Shape`. -/
theorem Reconcile_shape (r : WordpressReconciler σ ε W PVC Dep Svc) (ctx : Context)
    (request : Request) (s : σ) : (Reconcile r ctx request s).Shape := by
  rcases hget : r.Get Context.TODO request.NamespacedName r.emptyWordpress s with ⟨⟨w, _ | e⟩, s0⟩
  swap
  · left
    rw [Reconcile_fetch_failed r ctx request s w e s0 hget]
    split <;> simp
  right
  rcases h1 : r.ensurePVC request w (r.pvcForMysql w) s0 with ⟨⟨_ | res1, e1⟩, s1⟩
  swap
  · left
    simp [Reconcile, hget, h1]
  right
  rcases h2 : r.ensureDeployment request w (r.deploymentForMysql w) s1 with ⟨⟨_ | res2, e2⟩, s2⟩
  swap
  · left
    simp [Reconcile, hget, h1, h2]
  right
  rcases h3 : r.ensureService request w (r.serviceForMysql w) s2 with ⟨⟨_ | res3, e3⟩, s3⟩
  swap
  · left
    simp [Reconcile, hget, h1, h2, h3]
  right
  rcases hg : r.isMysqlUp w s3 with ⟨_ | _, s4⟩
  · left
    rw [Reconcile_gate_closed r ctx request s w s0 s1 s2 s3 s4 e1 e2 e3 hget h1 h2 h3 hg]
    simp
  right
  rcases h5 : r.ensurePVC request w (r.pvcForWordpress w) s4 with ⟨⟨_ | res5, e5⟩, s5⟩
  swap
  · left
    simp [Reconcile, hget, h1, h2, h3, hg, h5]
  right
  rcases h6 : r.ensureDeployment request w (r.deploymentForWordpress w) s5 with
    ⟨⟨_ | res6, e6⟩, s6⟩
  swap
  · left
    simp [Reconcile, hget, h1, h2, h3, hg, h5, h6]
  right
  rcases h7 : r.ensureService request w (r.serviceForWordpress w) s6 with ⟨⟨_ | res7, e7⟩, s7⟩
  swap
  · left
    simp [Reconcile, hget, h1, h2, h3, hg, h5, h6, h7]
  right
  simp [Reconcile, hget, h1, h2, h3, hg, h5, h6, h7]

/-- An invocation that stops at an ensure step returning a non-nil result returns
that result and the error next to it, and has called exactly the call sites up
to and including that step. -/
theorem Reconcile_stops_at (r : WordpressReconciler σ ε W PVC Dep Svc) (ctx : Context)
    (request : Request) (s : σ) (st : Step) (res : Result) (err : Option ε)
    (h : Event.ensure st (some res) err ∈ (Reconcile r ctx request s).trace) :
    (Reconcile r ctx request s).result = res ∧
    (Reconcile r ctx request s).err = err ∧
    (Reconcile r ctx request s).trace.getLast? = some (Event.ensure st (some res) err) ∧
    (Reconcile r ctx request s).trace.map Event.step = Step.programOrder.take (st.index + 1) := by
  have hs := Reconcile_shape r ctx request s
  generalize Reconcile r ctx request s = inv at h hs
  obtain ⟨result, error, trace, state⟩ := inv
  simp only [Invocation.Shape] at hs h ⊢
  rcases hs with ⟨ht, -⟩ | ⟨a, b, rfl, rfl, ht⟩ | ⟨_, a, b, rfl, rfl, ht⟩ |
    ⟨_, _, a, b, rfl, rfl, ht⟩ | ⟨_, _, _, -, -, ht⟩ | ⟨_, _, _, a, b, rfl, rfl, ht⟩ |
    ⟨_, _, _, _, a, b, rfl, rfl, ht⟩ | ⟨_, _, _, _, _, a, b, rfl, rfl, ht⟩ |
    ⟨_, _, _, _, _, _, -, -, ht⟩
  all_goals subst ht
  all_goals simp at h
  all_goals (obtain ⟨rfl, rfl, rfl⟩ := h; simp [Event.step, Step.programOrder, Step.index])

/-- The call sites of an invocation are an initial segment of the program order,
and an application-tier call is preceded by the three backing-store ensures, each
returning a nil result, and by a gate that answered `true`. -/
theorem Reconcile_program_order (r : WordpressReconciler σ ε W PVC Dep Svc) (ctx : Context)
    (request : Request) (s : σ) :
    (Reconcile r ctx request s).trace.map Event.step <+: Step.programOrder ∧
    ((∃ ev ∈ (Reconcile r ctx request s).trace, ev.step.isApplication = true) →
      ∃ e1 e2 e3 rest, (Reconcile r ctx request s).trace =
        .ensure .ensurePVCMysql none e1 :: .ensure .ensureDeploymentMysql none e2 ::
          .ensure .ensureServiceMysql none e3 :: .gate true :: rest) := by
  have hs := Reconcile_shape r ctx request s
  generalize Reconcile r ctx request s = inv at hs
  obtain ⟨result, error, trace, state⟩ := inv
  simp only [Invocation.Shape] at hs ⊢
  rcases hs with ⟨ht, -⟩ | ⟨_, _, -, -, ht⟩ | ⟨_, _, _, -, -, ht⟩ |
    ⟨_, _, _, _, -, -, ht⟩ | ⟨_, _, _, -, -, ht⟩ | ⟨_, _, _, _, _, -, -, ht⟩ |
    ⟨_, _, _, _, _, _, -, -, ht⟩ | ⟨_, _, _, _, _, _, _, -, -, ht⟩ |
    ⟨_, _, _, _, _, _, -, -, ht⟩
  all_goals subst ht
  all_goals refine ⟨by simp only [List.map, Event.step]; decide, ?_⟩
  all_goals simp [Event.step, Step.isApplication]

/-- Every invocation of a run is `Reconcile` applied to some world. -/
theorem mem_reconcileAll (r : WordpressReconciler σ ε W PVC Dep Svc)
    (run : List ((σ → σ) × Context × Request)) (s : σ) (inv : Invocation σ ε)
    (h : inv ∈ reconcileAll r run s) :
    ∃ ctx request s0, inv = Reconcile r ctx request s0 := by
  induction run generalizing s with
  | nil => simp [reconcileAll] at h
  | cons head rest ih =>
    obtain ⟨external, ctx, request⟩ := head
    simp only [reconcileAll, List.mem_cons] at h
    rcases h with rfl | h
    · exact ⟨ctx, request, external s, rfl⟩
    · exact ih _ h

/-- Dropping the errors that come with nil results changes neither what an
invocation returns, nor the world it leaves, nor the call sites it reaches. -/
theorem Reconcile_withoutNilResultErrors (r : WordpressReconciler σ ε W PVC Dep Svc)
    (ctx : Context) (request : Request) (s : σ) :
    (Reconcile r.withoutNilResultErrors ctx request s).result =
        (Reconcile r ctx request s).result ∧
    (Reconcile r.withoutNilResultErrors ctx request s).err = (Reconcile r ctx request s).err ∧
    (Reconcile r.withoutNilResultErrors ctx request s).state =
        (Reconcile r ctx request s).state ∧
    (Reconcile r.withoutNilResultErrors ctx request s).trace.map Event.step =
        (Reconcile r ctx request s).trace.map Event.step := by
  rcases hget : r.Get Context.TODO request.NamespacedName r.emptyWordpress s with ⟨⟨w, _ | e⟩, s0⟩
  swap
  · simp [Reconcile, WordpressReconciler.withoutNilResultErrors, hget]
  rcases h1 : r.ensurePVC request w (r.pvcForMysql w) s0 with ⟨⟨_ | res1, e1⟩, s1⟩
  swap
  · simp [Reconcile, WordpressReconciler.withoutNilResultErrors, hget, h1, Event.step]
  rcases h2 : r.ensureDeployment request w (r.deploymentForMysql w) s1 with ⟨⟨_ | res2, e2⟩, s2⟩
  swap
  · simp [Reconcile, WordpressReconciler.withoutNilResultErrors, hget, h1, h2, Event.step]
  rcases h3 : r.ensureService request w (r.serviceForMysql w) s2 with ⟨⟨_ | res3, e3⟩, s3⟩
  swap
  · simp [Reconcile, WordpressReconciler.withoutNilResultErrors, hget, h1, h2, h3, Event.step]
  rcases hg : r.isMysqlUp w s3 with ⟨_ | _, s4⟩
  · simp [Reconcile, WordpressReconciler.withoutNilResultErrors, hget, h1, h2, h3, hg,
      Event.step]
  rcases h5 : r.ensurePVC request w (r.pvcForWordpress w) s4 with ⟨⟨_ | res5, e5⟩, s5⟩
  swap
  · simp [Reconcile, WordpressReconciler.withoutNilResultErrors, hget, h1, h2, h3, hg, h5,
      Event.step]
  rcases h6 : r.ensureDeployment request w (r.deploymentForWordpress w) s5 with
    ⟨⟨_ | res6, e6⟩, s6⟩
  swap
  · simp [Reconcile, WordpressReconciler.withoutNilResultErrors, hget, h1, h2, h3, hg, h5, h6,
      Event.step]
  rcases h7 : r.ensureService request w (r.serviceForWordpress w) s6 with ⟨⟨_ | res7, e7⟩, s7⟩
  swap
  · simp [Reconcile, WordpressReconciler.withoutNilResultErrors, hget, h1, h2, h3, hg, h5, h6,
      h7, Event.step]
  simp [Reconcile, WordpressReconciler.withoutNilResultErrors, hget, h1, h2, h3, hg, h5, h6,
    h7, Event.step]

/-- After an ensure step that returned a nil result the invocation goes on: the
next call site is reached, or, after the last one, the function ends with the
empty result and the nil error. -/
theorem Reconcile_continues_after (r : WordpressReconciler σ ε W PVC Dep Svc) (ctx : Context)
    (request : Request) (s : σ) (st : Step) (err : Option ε)
    (h : Event.ensure st none err ∈ (Reconcile r ctx request s).trace) :
    (st ≠ .ensureServiceWordpress →
      ∃ ev ∈ (Reconcile r ctx request s).trace, ev.step.index = st.index + 1) ∧
    (st = .ensureServiceWordpress →
      (Reconcile r ctx request s).result = {} ∧ (Reconcile r ctx request s).err = none) := by
  have hs := Reconcile_shape r ctx request s
  generalize Reconcile r ctx request s = inv at h hs
  obtain ⟨result, error, trace, state⟩ := inv
  simp only [Invocation.Shape] at hs h ⊢
  rcases hs with ⟨ht, -⟩ | ⟨_, _, rfl, rfl, ht⟩ | ⟨_, _, _, rfl, rfl, ht⟩ |
    ⟨_, _, _, _, rfl, rfl, ht⟩ | ⟨_, _, _, rfl, rfl, ht⟩ | ⟨_, _, _, _, _, rfl, rfl, ht⟩ |
    ⟨_, _, _, _, _, _, rfl, rfl, ht⟩ | ⟨_, _, _, _, _, _, _, rfl, rfl, ht⟩ |
    ⟨_, _, _, _, _, _, rfl, rfl, ht⟩
  all_goals subst ht
  all_goals simp at h
  · obtain ⟨rfl, rfl⟩ := h
    simp [Event.step, Step.index]
  · rcases h with ⟨rfl, rfl⟩ | ⟨rfl, rfl⟩ <;> simp [Event.step, Step.index]
  · rcases h with ⟨rfl, rfl⟩ | ⟨rfl, rfl⟩ | ⟨rfl, rfl⟩ <;> simp [Event.step, Step.index]
  · rcases h with ⟨rfl, rfl⟩ | ⟨rfl, rfl⟩ | ⟨rfl, rfl⟩ <;> simp [Event.step, Step.index]
  · rcases h with ⟨rfl, rfl⟩ | ⟨rfl, rfl⟩ | ⟨rfl, rfl⟩ | ⟨rfl, rfl⟩ <;>
      simp [Event.step, Step.index]
  · rcases h with ⟨rfl, rfl⟩ | ⟨rfl, rfl⟩ | ⟨rfl, rfl⟩ | ⟨rfl, rfl⟩ | ⟨rfl, rfl⟩ <;>
      simp [Event.step, Step.index]
  · rcases h with ⟨rfl, rfl⟩ | ⟨rfl, rfl⟩ | ⟨rfl, rfl⟩ | ⟨rfl, rfl⟩ | ⟨rfl, rfl⟩ | ⟨rfl, rfl⟩ <;>
      simp [Event.step, Step.index]

/-- The invocation when nothing stops it. -/
theorem Reconcile_all_nil (r : WordpressReconciler σ ε W PVC Dep Svc) (ctx : Context)
    (request : Request) (s : σ) (w : W) (s0 s1 s2 s3 s4 s5 s6 s7 : σ)
    (e1 e2 e3 e5 e6 e7 : Option ε)
    (hget : r.Get Context.TODO request.NamespacedName r.emptyWordpress s = ((w, none), s0))
    (h1 : r.ensurePVC request w (r.pvcForMysql w) s0 = ((none, e1), s1))
    (h2 : r.ensureDeployment request w (r.deploymentForMysql w) s1 = ((none, e2), s2))
    (h3 : r.ensureService request w (r.serviceForMysql w) s2 = ((none, e3), s3))
    (hg : r.isMysqlUp w s3 = (true, s4))
    (h5 : r.ensurePVC request w (r.pvcForWordpress w) s4 = ((none, e5), s5))
    (h6 : r.ensureDeployment request w (r.deploymentForWordpress w) s5 = ((none, e6), s6))
    (h7 : r.ensureService request w (r.serviceForWordpress w) s6 = ((none, e7), s7)) :
    Reconcile r ctx request s =
      ⟨{}, none,
       [.ensure .ensurePVCMysql none e1, .ensure .ensureDeploymentMysql none e2,
        .ensure .ensureServiceMysql none e3, .gate true,
        .ensure .ensurePVCWordpress none e5, .ensure .ensureDeploymentWordpress none e6,
        .ensure .ensureServiceWordpress none e7], s7⟩ := by
  simp only [Reconcile, hget, h1, h2, h3, hg, h5, h6, h7]
  rfl

/-- When the ensure helpers return an error only next to a non-nil result, no
call of an invocation returns a nil result together with an error. -/
theorem Reconcile_no_dropped_error (r : WordpressReconciler σ ε W PVC Dep Svc)
    (hr : r.ErrorsAbort) (ctx : Context) (request : Request) (s : σ) (st : Step) (e : ε) :
    Event.ensure st none (some e) ∉ (Reconcile r ctx request s).trace := by
  obtain ⟨hP, hD, hS⟩ := hr
  intro h
  rcases hget : r.Get Context.TODO request.NamespacedName r.emptyWordpress s with ⟨⟨w, _ | e0⟩, s0⟩
  swap
  · rw [Reconcile_fetch_failed r ctx request s w e0 s0 hget] at h
    split at h <;> simp at h
  rcases h1 : r.ensurePVC request w (r.pvcForMysql w) s0 with ⟨⟨_ | res1, e1⟩, s1⟩
  swap
  · simp [Reconcile, hget, h1] at h
  obtain rfl : e1 = none := by
    by_contra hne
    exact hP request w (r.pvcForMysql w) s0 (by rw [h1]; exact hne) (by rw [h1])
  rcases h2 : r.ensureDeployment request w (r.deploymentForMysql w) s1 with ⟨⟨_ | res2, e2⟩, s2⟩
  swap
  · simp [Reconcile, hget, h1, h2] at h
  obtain rfl : e2 = none := by
    by_contra hne
    exact hD request w (r.deploymentForMysql w) s1 (by rw [h2]; exact hne) (by rw [h2])
  rcases h3 : r.ensureService request w (r.serviceForMysql w) s2 with ⟨⟨_ | res3, e3⟩, s3⟩
  swap
  · simp [Reconcile, hget, h1, h2, h3] at h
  obtain rfl : e3 = none := by
    by_contra hne
    exact hS request w (r.serviceForMysql w) s2 (by rw [h3]; exact hne) (by rw [h3])
  rcases hg : r.isMysqlUp w s3 with ⟨_ | _, s4⟩
  · simp [Reconcile, hget, h1, h2, h3, hg] at h
  rcases h5 : r.ensurePVC request w (r.pvcForWordpress w) s4 with ⟨⟨_ | res5, e5⟩, s5⟩
  swap
  · simp [Reconcile, hget, h1, h2, h3, hg, h5] at h
  obtain rfl : e5 = none := by
    by_contra hne
    exact hP request w (r.pvcForWordpress w) s4 (by rw [h5]; exact hne) (by rw [h5])
  rcases h6 : r.ensureDeployment request w (r.deploymentForWordpress w) s5 with
    ⟨⟨_ | res6, e6⟩, s6⟩
  swap
  · simp [Reconcile, hget, h1, h2, h3, hg, h5, h6] at h
  obtain rfl : e6 = none := by
    by_contra hne
    exact hD request w (r.deploymentForWordpress w) s5 (by rw [h6]; exact hne) (by rw [h6])
  rcases h7 : r.ensureService request w (r.serviceForWordpress w) s6 with ⟨⟨_ | res7, e7⟩, s7⟩
  swap
  · simp [Reconcile, hget, h1, h2, h3, hg, h5, h6, h7] at h
  obtain rfl : e7 = none := by
    by_contra hne
    exact hS request w (r.serviceForWordpress w) s6 (by rw [h7]; exact hne) (by rw [h7])
  simp [Reconcile, hget, h1, h2, h3, hg, h5, h6, h7] at h

end Orchestrator

/-! ## Properties of the modelled store and helpers -/

/-- A fetch fails and leaves the object passed in, or finds a declared object
with the requested identity; the store is never changed. -/
theorem Store.get_cases (ctx : Context) (key : NamespacedName) (into : DeclaredObject)
    (s : Store) :
    (∃ e, Store.get ctx key into s = ((into, some e), s)) ∨
    (∃ d, Store.get ctx key into s = ((d, none), s)) := by
  unfold Store.get
  split
  · exact Or.inl ⟨_, rfl⟩
  split
  · exact Or.inl ⟨_, rfl⟩
  split
  · exact Or.inr ⟨_, rfl⟩
  · exact Or.inl ⟨_, rfl⟩

/-- The three ways the ensure-operation can end: an error is propagated with the
store untouched, the sub-resource was absent and is created, or it is present. -/
theorem ensure_cases (request : Request) (owner : DeclaredObject) (desired : SubResource)
    (s : Store) :
    (∃ e, ensure request owner desired s = ((some {}, some e), s)) ∨
    (s.has desired = false ∧ ensure request owner desired s =
      ((some {}, none), s.create { desired with owner := some owner.identity })) ∨
    (s.has desired = true ∧ ensure request owner desired s = ((none, none), s)) := by
  unfold ensure
  split
  · exact Or.inl ⟨_, rfl⟩
  split
  · exact Or.inr (Or.inr ⟨by assumption, rfl⟩)
  split
  · exact Or.inl ⟨_, rfl⟩
  · exact Or.inr (Or.inl ⟨by simpa using ‹¬ s.has desired = true›, rfl⟩)

/-- The gate never changes the store. -/
theorem isMysqlUp_state (d : DeclaredObject) (s : Store) : (isMysqlUp d s).2 = s := by
  unfold isMysqlUp
  split <;> rfl

/-- One invocation on the modelled store leaves the store as it found it, or
creates exactly one sub-resource that was absent, owned by the declared object,
and then returns the empty result with the nil error. -/
theorem controller_step (ctx : Context) (request : Request) (s : Store) :
    (Reconcile controller ctx request s).state = s ∨
    ∃ d t k, s.has (template t k d) = false ∧
      (Reconcile controller ctx request s).state =
        s.create { template t k d with owner := some d.identity } ∧
      (Reconcile controller ctx request s).result = {} ∧
      (Reconcile controller ctx request s).err = none := by
  rcases Store.get_cases Context.TODO request.NamespacedName controller.emptyWordpress s with
    ⟨e, c0⟩ | ⟨d, c0⟩
  · have hget : controller.Get Context.TODO request.NamespacedName controller.emptyWordpress s
        = _ := c0
    left
    rw [Reconcile_fetch_failed controller ctx request s _ e s hget]
    split <;> rfl
  have hget : controller.Get Context.TODO request.NamespacedName controller.emptyWordpress s
      = _ := c0
  rcases ensure_cases request d (template .backingStore .StorageClaim d) s with ⟨e, c1⟩ | ⟨ha, c1⟩ | ⟨-, c1⟩
  · have h1 : controller.ensurePVC request d (controller.pvcForMysql d) s = _ := c1
    left
    simp only [Reconcile, hget, h1]
  · have h1 : controller.ensurePVC request d (controller.pvcForMysql d) s = _ := c1
    right
    refine ⟨d, .backingStore, .StorageClaim, ha, ?_⟩
    simp [Reconcile, hget, h1]
  have h1 : controller.ensurePVC request d (controller.pvcForMysql d) s = _ := c1
  rcases ensure_cases request d (template .backingStore .Deployment d) s with ⟨e, c2⟩ | ⟨ha, c2⟩ | ⟨-, c2⟩
  · have h2 : controller.ensureDeployment request d (controller.deploymentForMysql d) s = _ := c2
    left
    simp only [Reconcile, hget, h1, h2]
  · have h2 : controller.ensureDeployment request d (controller.deploymentForMysql d) s = _ := c2
    right
    refine ⟨d, .backingStore, .Deployment, ha, ?_⟩
    simp [Reconcile, hget, h1, h2]
  have h2 : controller.ensureDeployment request d (controller.deploymentForMysql d) s = _ := c2
  rcases ensure_cases request d (template .backingStore .Service d) s with ⟨e, c3⟩ | ⟨ha, c3⟩ | ⟨-, c3⟩
  · have h3 : controller.ensureService request d (controller.serviceForMysql d) s = _ := c3
    left
    simp only [Reconcile, hget, h1, h2, h3]
  · have h3 : controller.ensureService request d (controller.serviceForMysql d) s = _ := c3
    right
    refine ⟨d, .backingStore, .Service, ha, ?_⟩
    simp [Reconcile, hget, h1, h2, h3]
  have h3 : controller.ensureService request d (controller.serviceForMysql d) s = _ := c3
  have hgs := isMysqlUp_state d s
  rcases hg0 : isMysqlUp d s with ⟨up, s4⟩
  rw [hg0] at hgs
  subst hgs
  have hg : controller.isMysqlUp d s4 = (up, s4) := hg0
  cases up
  · left
    simp only [Reconcile, hget, h1, h2, h3, hg]
  rcases ensure_cases request d (template .application .StorageClaim d) s4 with ⟨e, c5⟩ | ⟨ha, c5⟩ | ⟨-, c5⟩
  · have h5 : controller.ensurePVC request d (controller.pvcForWordpress d) s4 = _ := c5
    left
    simp only [Reconcile, hget, h1, h2, h3, hg, h5]
  · have h5 : controller.ensurePVC request d (controller.pvcForWordpress d) s4 = _ := c5
    right
    refine ⟨d, .application, .StorageClaim, ha, ?_⟩
    simp [Reconcile, hget, h1, h2, h3, hg, h5]
  have h5 : controller.ensurePVC request d (controller.pvcForWordpress d) s4 = _ := c5
  rcases ensure_cases request d (template .application .Deployment d) s4 with ⟨e, c6⟩ | ⟨ha, c6⟩ | ⟨-, c6⟩
  · have h6 : controller.ensureDeployment request d (controller.deploymentForWordpress d) s4 = _ := c6
    left
    simp only [Reconcile, hget, h1, h2, h3, hg, h5, h6]
  · have h6 : controller.ensureDeployment request d (controller.deploymentForWordpress d) s4 = _ := c6
    right
    refine ⟨d, .application, .Deployment, ha, ?_⟩
    simp [Reconcile, hget, h1, h2, h3, hg, h5, h6]
  have h6 : controller.ensureDeployment request d (controller.deploymentForWordpress d) s4 = _ := c6
  rcases ensure_cases request d (template .application .Service d) s4 with ⟨e, c7⟩ | ⟨ha, c7⟩ | ⟨-, c7⟩
  · have h7 : controller.ensureService request d (controller.serviceForWordpress d) s4 = _ := c7
    left
    simp only [Reconcile, hget, h1, h2, h3, hg, h5, h6, h7]
  · have h7 : controller.ensureService request d (controller.serviceForWordpress d) s4 = _ := c7
    right
    refine ⟨d, .application, .Service, ha, ?_⟩
    simp [Reconcile, hget, h1, h2, h3, hg, h5, h6, h7]
  have h7 : controller.ensureService request d (controller.serviceForWordpress d) s4 = _ := c7
  left
  simp only [Reconcile, hget, h1, h2, h3, hg, h5, h6, h7]

/-- The existence check looks at kind, namespace and name only. -/
theorem Store.has_owner (s : Store) (x : SubResource) (o : Option NamespacedName) :
    s.has { x with owner := o } = s.has x := by
  simp [Store.has, SubResource.sameKey]

/-- One invocation on the modelled store keeps every stored sub-resource as it
is and adds at most one, whose name was absent. -/
theorem controller_adds (ctx : Context) (request : Request) (s : Store) :
    ∃ added : List SubResource,
      (Reconcile controller ctx request s).state =
        { s with subResources := s.subResources ++ added } ∧
      added.length ≤ 1 ∧ ∀ x ∈ added, s.has x = false := by
  rcases controller_step ctx request s with h | ⟨d, t, k, ha, h, -, -⟩
  · exact ⟨[], by rw [h]; simp, by simp, by simp⟩
  · refine ⟨[{ template t k d with owner := some d.identity }], by rw [h]; rfl, by simp, ?_⟩
    intro x hx
    rw [List.mem_singleton] at hx
    subst hx
    rw [Store.has_owner]
    exact ha

/-- On a settled store an invocation finds everything in place: it calls all
seven steps, returns the empty result with the nil error and leaves the store
as it found it. -/
theorem controller_settled (ctx : Context) (request : Request) (s : Store)
    (d : DeclaredObject) (hname : request.NamespacedName = d.identity)
    (hs : s.settledFor d = true) :
    Reconcile controller ctx request s =
      ⟨{}, none,
       [.ensure .ensurePVCMysql none none, .ensure .ensureDeploymentMysql none none,
        .ensure .ensureServiceMysql none none, .gate true,
        .ensure .ensurePVCWordpress none none, .ensure .ensureDeploymentWordpress none none,
        .ensure .ensureServiceWordpress none none], s⟩ := by
  simp only [Store.settledFor, managed, List.all_cons, List.all_nil, Bool.and_true,
    Bool.and_eq_true, Bool.not_eq_true', decide_eq_true_eq] at hs
  obtain ⟨⟨⟨hun, hfind⟩, hm1, hm2, hm3, hw1, hw2, hw3⟩, hup⟩ := hs
  have hget : controller.Get Context.TODO request.NamespacedName controller.emptyWordpress s =
      ((d, none), s) := by
    show Store.get Context.TODO request.NamespacedName _ s = _
    simp [Store.get, Context.TODO, hun, hname, hfind]
  have hens : ∀ t k, s.has (template t k d) = true →
      ensure request d (template t k d) s = ((none, none), s) := by
    intro t k h
    simp [ensure, hun, h]
  have hg : controller.isMysqlUp d s = (true, s) := by
    show isMysqlUp d s = (true, s)
    exact Prod.ext hup (isMysqlUp_state d s)
  exact Reconcile_all_nil controller ctx request s d s s s s s s s s none none none none none
    none hget (hens _ _ hm1) (hens _ _ hm2) (hens _ _ hm3) hg (hens _ _ hw1) (hens _ _ hw2)
    (hens _ _ hw3)

/-- The modelled ensure-operation returns an error only next to a non-nil
result. -/
theorem controller_errorsAbort : controller.ErrorsAbort := by
  have key : ∀ (request : Request) (w : DeclaredObject) (x : SubResource) (s : Store),
      (ensure request w x s).1.2 ≠ none → (ensure request w x s).1.1 ≠ none := by
    intro request w x s
    rcases ensure_cases request w x s with ⟨e, h⟩ | ⟨-, h⟩ | ⟨-, h⟩ <;> simp [h]
  exact ⟨key, key, key⟩

/-! ## The claims about `Reconcile` -/

section Claims

variable {σ ε W PVC Dep Svc : Type}

/-- C1: when the store Get of the declared Wordpress object fails with a
not-found error, `Reconcile` returns the Done outcome (the empty Result and the
nil error) and calls none of the six ensure steps and not the readiness gate;
the world it leaves is the one the Get left. -/
theorem reconcile_object_gone (r : WordpressReconciler σ ε W PVC Dep Svc) (ctx : Context)
    (request : Request) (s : σ) (e : ε)
    (hget : (r.Get Context.TODO request.NamespacedName r.emptyWordpress s).1.2 = some e)
    (hnf : r.IsNotFound e = true) :
    (Reconcile r ctx request s).result = {} ∧
    (Reconcile r ctx request s).err = none ∧
    (Reconcile r ctx request s).trace = [] ∧
    (Reconcile r ctx request s).state =
      (r.Get Context.TODO request.NamespacedName r.emptyWordpress s).2 := by
  rcases h : r.Get Context.TODO request.NamespacedName r.emptyWordpress s with ⟨⟨w, e0⟩, s0⟩
  rw [h] at hget
  simp only at hget
  subst hget
  rw [Reconcile_fetch_failed r ctx request s w e s0 h]
  simp [hnf]

/-- Witness of C1: `W1` is requested from a store that does not hold it. -/
theorem reconcile_object_gone_witness :
    (controller.Get Context.TODO requestW1.NamespacedName controller.emptyWordpress
        vacantStore).1.2 = some StoreError.NotFound ∧
    controller.IsNotFound StoreError.NotFound = true ∧
    ((Reconcile controller ⟨false⟩ requestW1 vacantStore).result = {} ∧
     (Reconcile controller ⟨false⟩ requestW1 vacantStore).err = none ∧
     (Reconcile controller ⟨false⟩ requestW1 vacantStore).trace = [] ∧
     (Reconcile controller ⟨false⟩ requestW1 vacantStore).state =
       (controller.Get Context.TODO requestW1.NamespacedName controller.emptyWordpress
         vacantStore).2) :=
  ⟨by decide, by decide,
   reconcile_object_gone controller ⟨false⟩ requestW1 vacantStore StoreError.NotFound
     (by decide) (by decide)⟩

/-- C2: when the declared object is fetched, the three backing-store (MySQL)
ensure steps each return a nil result, and the readiness gate `isMysqlUp` returns
false, `Reconcile` returns exactly `Result{RequeueAfter: 5 * time.Second}`, that is
5,000,000,000 ns, together with the nil error. -/
theorem reconcile_requeues_while_mysql_down (r : WordpressReconciler σ ε W PVC Dep Svc)
    (ctx : Context) (request : Request) (s : σ) (w : W) (s0 s1 s2 s3 s4 : σ)
    (e1 e2 e3 : Option ε)
    (hget : r.Get Context.TODO request.NamespacedName r.emptyWordpress s = ((w, none), s0))
    (h1 : r.ensurePVC request w (r.pvcForMysql w) s0 = ((none, e1), s1))
    (h2 : r.ensureDeployment request w (r.deploymentForMysql w) s1 = ((none, e2), s2))
    (h3 : r.ensureService request w (r.serviceForMysql w) s2 = ((none, e3), s3))
    (hg : r.isMysqlUp w s3 = (false, s4)) :
    (Reconcile r ctx request s).result = { Requeue := false, RequeueAfter := 5000000000 } ∧
    (Reconcile r ctx request s).result.RequeueAfter = 5 * Second ∧
    (Reconcile r ctx request s).err = none := by
  rw [Reconcile_gate_closed r ctx request s w s0 s1 s2 s3 s4 e1 e2 e3 hget h1 h2 h3 hg]
  exact ⟨rfl, by show (5000000000 : Duration) = 5 * Second; decide, rfl⟩

/-- Witness of C2: the three MySQL sub-resources of `W1` exist and the deployment
reports 0/1 ready replicas. -/
theorem reconcile_requeues_while_mysql_down_witness :
    (Reconcile controller ⟨false⟩ requestW1 mysqlPending).result =
      { Requeue := false, RequeueAfter := 5000000000 } ∧
    (Reconcile controller ⟨false⟩ requestW1 mysqlPending).result.RequeueAfter = 5 * Second ∧
    (Reconcile controller ⟨false⟩ requestW1 mysqlPending).err = none :=
  reconcile_requeues_while_mysql_down controller ⟨false⟩ requestW1 mysqlPending W1
    mysqlPending mysqlPending mysqlPending mysqlPending mysqlPending none none none
    (by decide) (by decide) (by decide) (by decide) (by decide)

/-- C3: in every run of invocations, the calls made inside each invocation are
an initial segment of the fixed sequence MySQL claim, MySQL deployment, MySQL
service, readiness gate, Wordpress claim, Wordpress deployment, Wordpress service;
an invocation that calls an application-tier ensure has first called the three
backing-store ensures, each returning a nil result, and the gate, which returned
true; and if the gate never returns true in the run, no application-tier ensure
is ever called. -/
theorem reconcileAll_program_order (r : WordpressReconciler σ ε W PVC Dep Svc)
    (run : List ((σ → σ) × Context × Request)) (s : σ) :
    (∀ inv ∈ reconcileAll r run s,
      inv.trace.map Event.step <+: Step.programOrder ∧
      ((∃ ev ∈ inv.trace, ev.step.isApplication = true) →
        ∃ e1 e2 e3 rest, inv.trace =
          .ensure .ensurePVCMysql none e1 :: .ensure .ensureDeploymentMysql none e2 ::
            .ensure .ensureServiceMysql none e3 :: .gate true :: rest)) ∧
    ((∀ inv ∈ reconcileAll r run s, Event.gate true ∉ inv.trace) →
      ∀ inv ∈ reconcileAll r run s, ∀ ev ∈ inv.trace, ev.step.isApplication = false) := by
  have key : ∀ inv ∈ reconcileAll r run s,
      inv.trace.map Event.step <+: Step.programOrder ∧
      ((∃ ev ∈ inv.trace, ev.step.isApplication = true) →
        ∃ e1 e2 e3 rest, inv.trace =
          .ensure .ensurePVCMysql none e1 :: .ensure .ensureDeploymentMysql none e2 ::
            .ensure .ensureServiceMysql none e3 :: .gate true :: rest) := by
    intro inv hinv
    obtain ⟨ctx, request, s0, rfl⟩ := mem_reconcileAll r run s inv hinv
    exact Reconcile_program_order r ctx request s0
  refine ⟨key, ?_⟩
  intro hgate inv hinv ev hev
  by_contra happ
  have happ1 : ev.step.isApplication = true := by simpa using happ
  obtain ⟨e1, e2, e3, rest, htr⟩ := (key inv hinv).2 ⟨ev, hev, happ1⟩
  exact hgate inv hinv (by rw [htr]; simp)

/-- Witness of C3: five invocations for `W1` from the empty store while the MySQL
deployment never becomes ready. -/
theorem reconcileAll_program_order_witness :
    (∀ inv ∈ reconcileAll controller idleRun emptyStore, Event.gate true ∉ inv.trace) ∧
    (∀ inv ∈ reconcileAll controller idleRun emptyStore, ∀ ev ∈ inv.trace,
      ev.step.isApplication = false) :=
  ⟨by decide, (reconcileAll_program_order controller idleRun emptyStore).2 (by decide)⟩

/-- C4: when the declared object is fetched and some called ensure step (any of
the six) reports an error, `Reconcile` does not report success: it returns an
Error outcome carrying that error, together with the Result the step pointed
to, and that call is the last of the invocation, so no later ensure step runs.
The ensure helpers are taken under their contract: an error is returned only
next to a non-nil result. -/
theorem reconcile_error_propagated (r : WordpressReconciler σ ε W PVC Dep Svc)
    (hr : r.ErrorsAbort) (ctx : Context) (request : Request) (s : σ) (st : Step)
    (res : Option Result) (e : ε)
    (h : Event.ensure st res (some e) ∈ (Reconcile r ctx request s).trace) :
    (Reconcile r ctx request s).err = some e ∧
    res = some (Reconcile r ctx request s).result ∧
    (Reconcile r ctx request s).trace.getLast? = some (Event.ensure st res (some e)) ∧
    (Reconcile r ctx request s).trace.map Event.step =
      Step.programOrder.take (st.index + 1) := by
  cases res with
  | none => exact absurd h (Reconcile_no_dropped_error r hr ctx request s st e)
  | some result =>
    have h0 := Reconcile_stops_at r ctx request s st result (some e) h
    exact ⟨h0.2.1, by rw [h0.1], h0.2.2.1, h0.2.2.2⟩

/-- Witness of C4: the store holding `W1` refuses the create of the MySQL claim. -/
theorem reconcile_error_propagated_witness :
    controller.ErrorsAbort ∧
    Event.ensure .ensurePVCMysql (some {}) (some StoreError.CreateFailed) ∈
      (Reconcile controller ⟨false⟩ requestW1 frozenStore).trace ∧
    ((Reconcile controller ⟨false⟩ requestW1 frozenStore).err = some StoreError.CreateFailed ∧
     some {} = some (Reconcile controller ⟨false⟩ requestW1 frozenStore).result ∧
     (Reconcile controller ⟨false⟩ requestW1 frozenStore).trace.getLast? =
       some (Event.ensure .ensurePVCMysql (some {}) (some StoreError.CreateFailed)) ∧
     (Reconcile controller ⟨false⟩ requestW1 frozenStore).trace.map Event.step =
       Step.programOrder.take (Step.ensurePVCMysql.index + 1)) :=
  ⟨controller_errorsAbort, by decide,
   reconcile_error_propagated controller controller_errorsAbort ⟨false⟩ requestW1 frozenStore
     .ensurePVCMysql (some {}) StoreError.CreateFailed (by decide)⟩

/-- C5: for each of the six ensure steps, if that step returns a non-nil result
(it is then the first and only one to do so), `Reconcile` exits at once: it
returns exactly the pointed-to Result and the error returned next to it, that
call is the last one of the invocation, and the calls made are exactly the call
sites up to and including that step, so no later ensure step runs and, for a
backing-store step, the readiness gate is not evaluated. -/
theorem reconcile_short_circuit (r : WordpressReconciler σ ε W PVC Dep Svc) (ctx : Context)
    (request : Request) (s : σ) (st : Step) (res : Result) (err : Option ε)
    (h : Event.ensure st (some res) err ∈ (Reconcile r ctx request s).trace) :
    (Reconcile r ctx request s).result = res ∧
    (Reconcile r ctx request s).err = err ∧
    (Reconcile r ctx request s).trace.getLast? = some (Event.ensure st (some res) err) ∧
    (Reconcile r ctx request s).trace.map Event.step = Step.programOrder.take (st.index + 1) ∧
    (st.isBackingStore = true →
      ∀ ev ∈ (Reconcile r ctx request s).trace, ev.step ≠ Step.isMysqlUp) := by
  have h0 := Reconcile_stops_at r ctx request s st res err h
  refine ⟨h0.1, h0.2.1, h0.2.2.1, h0.2.2.2, ?_⟩
  intro hb ev hev hgate
  have hmem : Step.isMysqlUp ∈ (Reconcile r ctx request s).trace.map Event.step :=
    List.mem_map.mpr ⟨ev, hev, hgate⟩
  rw [h0.2.2.2] at hmem
  cases st <;> simp [Step.isBackingStore, Step.programOrder, Step.index] at hb hmem

/-- Witness of C5: the MySQL claim of `W1` is absent and is created. -/
theorem reconcile_short_circuit_witness :
    Event.ensure .ensurePVCMysql (some {}) (none : Option StoreError) ∈
      (Reconcile controller ⟨false⟩ requestW1 emptyStore).trace ∧
    ((Reconcile controller ⟨false⟩ requestW1 emptyStore).result = {} ∧
     (Reconcile controller ⟨false⟩ requestW1 emptyStore).err = none ∧
     (Reconcile controller ⟨false⟩ requestW1 emptyStore).trace.getLast? =
       some (Event.ensure .ensurePVCMysql (some {}) none) ∧
     (Reconcile controller ⟨false⟩ requestW1 emptyStore).trace.map Event.step =
       Step.programOrder.take (Step.ensurePVCMysql.index + 1) ∧
     (Step.ensurePVCMysql.isBackingStore = true →
       ∀ ev ∈ (Reconcile controller ⟨false⟩ requestW1 emptyStore).trace,
         ev.step ≠ Step.isMysqlUp)) :=
  ⟨by decide,
   reconcile_short_circuit controller ⟨false⟩ requestW1 emptyStore .ensurePVCMysql {} none
     (by decide)⟩

/-- C6: when the declared object is fetched, all six ensure steps return a nil
result with no error, and the readiness gate returns true, `Reconcile` calls the
claim, deployment and service ensures of the backing store, the gate, then the
claim, deployment and service ensures of the application, and returns the Done
outcome: the empty Result, without RequeueAfter, and the nil error. -/
theorem reconcile_done (r : WordpressReconciler σ ε W PVC Dep Svc) (ctx : Context)
    (request : Request) (s : σ) (w : W) (s0 s1 s2 s3 s4 s5 s6 s7 : σ)
    (hget : r.Get Context.TODO request.NamespacedName r.emptyWordpress s = ((w, none), s0))
    (h1 : r.ensurePVC request w (r.pvcForMysql w) s0 = ((none, none), s1))
    (h2 : r.ensureDeployment request w (r.deploymentForMysql w) s1 = ((none, none), s2))
    (h3 : r.ensureService request w (r.serviceForMysql w) s2 = ((none, none), s3))
    (hg : r.isMysqlUp w s3 = (true, s4))
    (h5 : r.ensurePVC request w (r.pvcForWordpress w) s4 = ((none, none), s5))
    (h6 : r.ensureDeployment request w (r.deploymentForWordpress w) s5 = ((none, none), s6))
    (h7 : r.ensureService request w (r.serviceForWordpress w) s6 = ((none, none), s7)) :
    (Reconcile r ctx request s).trace =
      [.ensure .ensurePVCMysql none none, .ensure .ensureDeploymentMysql none none,
       .ensure .ensureServiceMysql none none, .gate true,
       .ensure .ensurePVCWordpress none none, .ensure .ensureDeploymentWordpress none none,
       .ensure .ensureServiceWordpress none none] ∧
    (Reconcile r ctx request s).result = { Requeue := false, RequeueAfter := 0 } ∧
    (Reconcile r ctx request s).err = none ∧
    (Reconcile r ctx request s).state = s7 := by
  rw [Reconcile_all_nil r ctx request s w s0 s1 s2 s3 s4 s5 s6 s7 none none none none none none
    hget h1 h2 h3 hg h5 h6 h7]
  exact ⟨rfl, rfl, rfl, rfl⟩

/-- Witness of C6: all six sub-resources of `W1` exist and MySQL is ready. -/
theorem reconcile_done_witness :
    (Reconcile controller ⟨false⟩ requestW1 settledStore).trace =
      [.ensure .ensurePVCMysql none none, .ensure .ensureDeploymentMysql none none,
       .ensure .ensureServiceMysql none none, .gate true,
       .ensure .ensurePVCWordpress none none, .ensure .ensureDeploymentWordpress none none,
       .ensure .ensureServiceWordpress none none] ∧
    (Reconcile controller ⟨false⟩ requestW1 settledStore).result =
      { Requeue := false, RequeueAfter := 0 } ∧
    (Reconcile controller ⟨false⟩ requestW1 settledStore).err = none ∧
    (Reconcile controller ⟨false⟩ requestW1 settledStore).state = settledStore :=
  reconcile_done controller ⟨false⟩ requestW1 settledStore W1 settledStore settledStore
    settledStore settledStore settledStore settledStore settledStore settledStore
    (by decide) (by decide) (by decide) (by decide) (by decide) (by decide) (by decide)
    (by decide)

/-- C7: when the store Get of the declared object fails with an error that is
not not-found, `Reconcile` returns an Error outcome carrying that same error, with
the empty Result, and calls no ensure step and not the readiness gate. -/
theorem reconcile_fetch_error (r : WordpressReconciler σ ε W PVC Dep Svc) (ctx : Context)
    (request : Request) (s : σ) (e : ε)
    (hget : (r.Get Context.TODO request.NamespacedName r.emptyWordpress s).1.2 = some e)
    (hnf : r.IsNotFound e = false) :
    (Reconcile r ctx request s).result = {} ∧
    (Reconcile r ctx request s).err = some e ∧
    (Reconcile r ctx request s).trace = [] := by
  rcases h : r.Get Context.TODO request.NamespacedName r.emptyWordpress s with ⟨⟨w, e0⟩, s0⟩
  rw [h] at hget
  simp only at hget
  subst hget
  rw [Reconcile_fetch_failed r ctx request s w e s0 h]
  simp [hnf]

/-- Witness of C7: the store does not answer reads. -/
theorem reconcile_fetch_error_witness :
    (controller.Get Context.TODO requestW1.NamespacedName controller.emptyWordpress
        ⟨[W1], [], true, false⟩).1.2 = some StoreError.TransientStoreError ∧
    controller.IsNotFound StoreError.TransientStoreError = false ∧
    ((Reconcile controller ⟨false⟩ requestW1 ⟨[W1], [], true, false⟩).result = {} ∧
     (Reconcile controller ⟨false⟩ requestW1 ⟨[W1], [], true, false⟩).err =
       some StoreError.TransientStoreError ∧
     (Reconcile controller ⟨false⟩ requestW1 ⟨[W1], [], true, false⟩).trace = []) :=
  ⟨by decide, by decide,
   reconcile_fetch_error controller ⟨false⟩ requestW1 ⟨[W1], [], true, false⟩
     StoreError.TransientStoreError (by decide) (by decide)⟩

/-- Counterexample to C8 as stated.  With the three MySQL sub-resources of `W1`
in place and the deployment at 0/1 ready replicas, two invocations in a row leave
the store untouched and both return `RequeueAfter` of 5 s, not Done.  From the
empty store, the second invocation creates the MySQL deployment, so the set of
sub-resources after it differs from the set after the first. -/
theorem reconcile_twice_not_idempotent :
    ((Reconcile controller ⟨false⟩ requestW1 mysqlPending).state = mysqlPending ∧
     (Reconcile controller ⟨false⟩ requestW1 mysqlPending).result =
       { Requeue := false, RequeueAfter := 5000000000 } ∧
     (Reconcile controller ⟨false⟩ requestW1 mysqlPending).result ≠ {} ∧
     (Reconcile controller ⟨false⟩ requestW1
       (Reconcile controller ⟨false⟩ requestW1 mysqlPending).state).result ≠ {}) ∧
    ((Reconcile controller ⟨false⟩ requestW1 emptyStore).state.subResources.map
        (fun x => x.Name) = ["W1-mysql-pvc"] ∧
     (Reconcile controller ⟨false⟩ requestW1
        (Reconcile controller ⟨false⟩ requestW1 emptyStore).state).state.subResources.map
        (fun x => x.Name) = ["W1-mysql-pvc", "W1-mysql-deployment"]) := by
  decide

/-- C8, amended: for every request and every store state, two invocations of
`Reconcile` in a row, with no external change in between, keep every stored
sub-resource as it is, each add at most one sub-resource, and only one whose
name is absent from the store, so that no sub-resource is created twice; when
the first invocation leaves the store as it found it, the second is the same
invocation again; and when the store answers reads, holds the declared object
and all six of its sub-resources and the backing store is ready, both
invocations return Done and leave the store unchanged. -/
theorem reconcile_twice (ctx1 ctx2 : Context) (request : Request) (s : Store) :
    (∃ added1 added2 : List SubResource,
      (Reconcile controller ctx1 request s).state =
        { s with subResources := s.subResources ++ added1 } ∧
      (Reconcile controller ctx2 request (Reconcile controller ctx1 request s).state).state =
        { s with subResources := s.subResources ++ added1 ++ added2 } ∧
      added1.length ≤ 1 ∧ added2.length ≤ 1 ∧
      (∀ x ∈ added1, s.has x = false) ∧
      (∀ y ∈ added2, s.has y = false) ∧
      (∀ x ∈ added1, ∀ y ∈ added2, x.sameKey y = false)) ∧
    ((Reconcile controller ctx1 request s).state = s →
      Reconcile controller ctx2 request (Reconcile controller ctx1 request s).state =
        Reconcile controller ctx1 request s) ∧
    (∀ d : DeclaredObject, request.NamespacedName = d.identity → s.settledFor d = true →
      (Reconcile controller ctx1 request s).result = {} ∧
      (Reconcile controller ctx1 request s).err = none ∧
      (Reconcile controller ctx1 request s).state = s ∧
      (Reconcile controller ctx2 request (Reconcile controller ctx1 request s).state).result
        = {} ∧
      (Reconcile controller ctx2 request (Reconcile controller ctx1 request s).state).err
        = none ∧
      (Reconcile controller ctx2 request (Reconcile controller ctx1 request s).state).state
        = s) := by
  refine ⟨?_, ?_, ?_⟩
  · obtain ⟨added1, h1, hl1, ha1⟩ := controller_adds ctx1 request s
    obtain ⟨added2, h2, hl2, ha2⟩ :=
      controller_adds ctx2 request (Reconcile controller ctx1 request s).state
    have hany : ∀ y ∈ added2,
        (s.subResources ++ added1).any (fun x => x.sameKey y) = false := by
      intro y hy
      have := ha2 y hy
      rw [h1] at this
      exact this
    refine ⟨added1, added2, h1, ?_, hl1, hl2, ha1, ?_, ?_⟩
    · rw [h2, h1]
    · intro y hy
      have := hany y hy
      simp only [List.any_append, Bool.or_eq_false_iff] at this
      exact this.1
    · intro x hx y hy
      have := hany y hy
      simp only [List.any_append, Bool.or_eq_false_iff, List.any_eq_false] at this
      simpa using this.2 x hx
  · intro h
    rw [h]
    rfl
  · intro d hname hs
    have h1 := controller_settled ctx1 request s d hname hs
    have h2 := controller_settled ctx2 request s d hname hs
    rw [h1]
    simp [h2]

/-- Witness of C8, amended: `W1` with all six sub-resources and MySQL ready. -/
theorem reconcile_twice_witness :
    requestW1.NamespacedName = W1.identity ∧ settledStore.settledFor W1 = true ∧
    ((Reconcile controller ⟨false⟩ requestW1 settledStore).result = {} ∧
     (Reconcile controller ⟨false⟩ requestW1 settledStore).err = none ∧
     (Reconcile controller ⟨false⟩ requestW1 settledStore).state = settledStore ∧
     (Reconcile controller ⟨false⟩ requestW1
       (Reconcile controller ⟨false⟩ requestW1 settledStore).state).result = {} ∧
     (Reconcile controller ⟨false⟩ requestW1
       (Reconcile controller ⟨false⟩ requestW1 settledStore).state).err = none ∧
     (Reconcile controller ⟨false⟩ requestW1
       (Reconcile controller ⟨false⟩ requestW1 settledStore).state).state = settledStore) :=
  ⟨by decide, by decide,
   (reconcile_twice ⟨false⟩ ⟨false⟩ requestW1 settledStore).2.2 W1 (by decide) (by decide)⟩

/-- Counterexample to C9 as stated.  The modelled store answers a Get made under
a cancelled context with the cancellation, yet `Reconcile` called with a cancelled
`ctx` does not abort: with MySQL pending it returns `RequeueAfter` of 5 s and the
nil error, with everything in place it returns Done, and from the empty store it
creates the MySQL claim. -/
theorem reconcile_cancelled_not_aborted :
    (Store.get ⟨true⟩ requestW1.NamespacedName controller.emptyWordpress mysqlPending).1.2 =
      some StoreError.Cancelled ∧
    (Reconcile controller ⟨true⟩ requestW1 mysqlPending).err = none ∧
    (Reconcile controller ⟨true⟩ requestW1 mysqlPending).result =
      { Requeue := false, RequeueAfter := 5000000000 } ∧
    (Reconcile controller ⟨true⟩ requestW1 settledStore).err = none ∧
    (Reconcile controller ⟨true⟩ requestW1 settledStore).result = {} ∧
    (Reconcile controller ⟨true⟩ requestW1 emptyStore).state.subResources.length = 1 := by
  decide

/-- C9, amended: `Reconcile` makes its store access, the Get of the declared
object, under `context.TODO()` and hands no context to the ensure steps or to the
readiness gate: the invocation depends on the store client only through its Get
at `context.TODO()`, and it is the same invocation for every caller-supplied
`ctx`, cancelled or not. -/
theorem reconcile_ignores_context (r : WordpressReconciler σ ε W PVC Dep Svc)
    (G : Context → NamespacedName → W → σ → (W × Option ε) × σ) (ctx1 ctx2 : Context)
    (request : Request) (s : σ) (hG : G Context.TODO = r.Get Context.TODO) :
    Reconcile { r with Get := G } ctx1 request s = Reconcile r ctx2 request s := by
  simp only [Reconcile, hG]

/-- Witness of C9, amended: a client that answers every Get as the modelled
store does under `context.TODO()`, called with a cancelled `ctx`. -/
theorem reconcile_ignores_context_witness :
    (fun _ => Store.get Context.TODO) Context.TODO = controller.Get Context.TODO ∧
    Reconcile { controller with Get := fun _ => Store.get Context.TODO } ⟨true⟩ requestW1
        emptyStore =
      Reconcile controller ⟨false⟩ requestW1 emptyStore :=
  ⟨rfl,
   reconcile_ignores_context controller (fun _ => Store.get Context.TODO) ⟨true⟩ ⟨false⟩
     requestW1 emptyStore rfl⟩

/-- C10: `Reconcile` decides whether to stop after an ensure step only from
whether the returned result pointer is nil.  When an ensure step returns a nil
result together with a non-nil error, the next step is called; at the final
application-tier service ensure `Reconcile` returns the Done outcome with the nil
error; and the error is discarded: what is returned, the world left and the steps
called are those of the invocation in which such errors are replaced by nil. -/
theorem reconcile_nil_result_error_discarded (r : WordpressReconciler σ ε W PVC Dep Svc)
    (ctx : Context) (request : Request) (s : σ) (st : Step) (e : ε)
    (h : Event.ensure st none (some e) ∈ (Reconcile r ctx request s).trace) :
    (st ≠ .ensureServiceWordpress →
      ∃ ev ∈ (Reconcile r ctx request s).trace, ev.step.index = st.index + 1) ∧
    (st = .ensureServiceWordpress →
      (Reconcile r ctx request s).result = {} ∧ (Reconcile r ctx request s).err = none) ∧
    (Reconcile r.withoutNilResultErrors ctx request s).result =
        (Reconcile r ctx request s).result ∧
    (Reconcile r.withoutNilResultErrors ctx request s).err = (Reconcile r ctx request s).err ∧
    (Reconcile r.withoutNilResultErrors ctx request s).state =
        (Reconcile r ctx request s).state ∧
    (Reconcile r.withoutNilResultErrors ctx request s).trace.map Event.step =
        (Reconcile r ctx request s).trace.map Event.step :=
  have h1 := Reconcile_continues_after r ctx request s st (some e) h
  have h2 := Reconcile_withoutNilResultErrors r ctx request s
  ⟨h1.1, h1.2, h2⟩

/-- Witness of C10: the Wordpress service ensure returns a nil result together
with an error. -/
theorem reconcile_nil_result_error_discarded_witness :
    Event.ensure .ensureServiceWordpress none (some "service lookup failed") ∈
      (Reconcile lossyLast ⟨false⟩ requestW1 0).trace ∧
    (Step.ensureServiceWordpress = .ensureServiceWordpress →
      (Reconcile lossyLast ⟨false⟩ requestW1 0).result = {} ∧
      (Reconcile lossyLast ⟨false⟩ requestW1 0).err = none) :=
  ⟨by decide,
   (reconcile_nil_result_error_discarded lossyLast ⟨false⟩ requestW1 0 .ensureServiceWordpress
     "service lookup failed" (by decide)).2.1⟩

/-- The concrete scenario of the design document on the modelled store: eight
invocations for `W1` from the empty store, the MySQL deployment becoming ready
before the fifth, end with all six sub-resources in place; the fourth returns
`RequeueAfter` of 5 s and the last returns Done having created nothing. -/
theorem scenario_converges :
    ((reconcileAll controller scenarioRun emptyStore).map (fun i => i.state)).getLast? =
      some settledStore ∧
    (reconcileAll controller scenarioRun emptyStore).map (fun i => (i.result, i.err)) =
      [({}, none), ({}, none), ({}, none), ({ RequeueAfter := 5000000000 }, none),
       ({}, none), ({}, none), ({}, none), ({}, none)] ∧
    (reconcileAll controller scenarioRun emptyStore).map
        (fun i => i.state.subResources.length) = [1, 2, 3, 3, 4, 5, 6, 6] := by
  decide

end Claims

end Wordpress
